import Mathlib

/-!
# Verification of the Smart Grievance System's Telegram intake core

A shallow embedding of the Telegram conversational-intake subsystem of
`src/server.ts` (session store, identity resolver, ticket writer, conversation
FSM, webhook ingestion gate) and of the two status-normalization code paths
(`normalizeStatus` from the dashboard page and the stage computation of
`GET /api/grievances/track/:ticket`), together with theorems settling the
spec's claims about them.

Modelling conventions:
* SQLite tables become Lean lists of row structures inside a `Db` record;
  `SELECT ... WHERE k = ?` becomes `List.find?`, `INSERT` an append, and the
  `ON CONFLICT ... DO UPDATE` upsert a keyed replace.  `lastInsertRowid` for
  the AUTOINCREMENT user id is modelled by an explicit `nextUserId` counter.
* `Date.now()` and `CURRENT_TIMESTAMP` are modelled by an explicit `now : Nat`
  parameter threaded into the webhook step.
* Telegram coordinates (`number` in TS) are modelled as integers: no claim
  depends on fractional values, only on presence and on the synthesized
  display string.
* JavaScript truthiness tests (`!session.userId`, `!draft.description`, ...)
  are modelled exactly: `0` and `""` are falsy, as is a missing value.
* The telegram session row stores the draft as a structured value instead of
  a JSON string: every draft written by `saveTelegramSession` round-trips
  through `JSON.stringify`/`parseDraft` unchanged, so the serialization layer
  is dropped.  (`parseDraft`'s degradation of malformed JSON to `{}` only
  matters for externally corrupted rows, which no claim exercises.)
* Outbound Telegram API calls (`sendMessage`, `answerCallbackQuery`) are
  fire-and-forget HTTP effects; they are modelled as an emitted effect list.
* The generated credential of an auto-provisioned citizen
  (`bcrypt.hashSync(uuid(), 10)`) is random and never read back by the
  modelled code, so the password column is omitted from the user row model.
-/

namespace SmartGrievance

/-- `type TelegramLanguage = "en" | "hi" | "mr"` (server.ts). -/
inductive TelegramLanguage where
  | en | hi | mr
deriving DecidableEq, Repr

/-- `type TelegramState = "idle" | "awaiting_language" | ...` (server.ts). -/
inductive TelegramState where
  | idle
  | awaiting_language
  | awaiting_category
  | awaiting_description
  | awaiting_location
  | awaiting_confirmation
deriving DecidableEq, Repr

/-- `type TranslationKey = ...` (server.ts). -/
inductive TranslationKey where
  | welcome
  | chooseLanguage
  | languageSet
  | chooseCategory
  | enterDescription
  | enterLocation
  | confirmPrompt
  | submitted
  | cancelled
  | help
  | invalidDescription
  | invalidLocation
  | unknown
  | statusMissing
  | statusNotFound
  | statusResult
deriving DecidableEq, Repr

/-- `interface TelegramDraft` (server.ts): all fields optional. -/
structure TelegramDraft where
  categoryId : Option Nat := none
  categoryName : Option String := none
  description : Option String := none
  location : Option String := none
  latitude : Option Int := none
  longitude : Option Int := none
deriving DecidableEq, Repr

/-- The empty draft `{}`. -/
def emptyDraft : TelegramDraft := {}

/-- `interface TelegramSession` (server.ts); also the shape of a
`telegram_sessions` row (see the serialization note in the file header). -/
structure TelegramSession where
  chatId : String
  userId : Option Nat
  state : TelegramState
  language : TelegramLanguage
  draft : TelegramDraft
deriving DecidableEq, Repr

/-- `interface TelegramUser` (server.ts). -/
structure TelegramUser where
  id : Int
  first_name : Option String := none
  last_name : Option String := none
deriving DecidableEq, Repr

/-- `interface TelegramLocation` (server.ts); coordinates modelled as
integers (see file header). -/
structure TelegramLocation where
  latitude : Int
  longitude : Int
deriving DecidableEq, Repr

/-- `interface TelegramMessage` (server.ts).  The nested `chat: { id: number }`
is flattened to `chat_id`; the `from` field is renamed `fromUser` because
`from` is reserved in Lean. -/
structure TelegramMessage where
  message_id : Nat
  chat_id : Int
  text : Option String := none
  location : Option TelegramLocation := none
  fromUser : Option TelegramUser := none
deriving DecidableEq, Repr

/-- `interface TelegramCallbackQuery` (server.ts). -/
structure TelegramCallbackQuery where
  id : String
  fromUser : TelegramUser
  data : Option String := none
  message : Option TelegramMessage := none
deriving DecidableEq, Repr

/-- `interface TelegramUpdate` (server.ts).  `update_id : Option Int` models
the webhook's `typeof update.update_id !== "number"` validation: `none`
stands for a missing or non-numeric `update_id`. -/
structure TelegramUpdate where
  update_id : Option Int
  message : Option TelegramMessage := none
  callback_query : Option TelegramCallbackQuery := none
deriving DecidableEq, Repr

/-- A `users` table row (db.ts schema restricted to the columns the Telegram
subsystem reads or writes; the password column is omitted, see file header). -/
structure UserRow where
  id : Nat
  email : String
  name : String
  role : String
  telegramChatId : Option String
deriving DecidableEq, Repr

/-- A `grievances` table row (db.ts schema restricted to the columns written
by the Telegram ticket writer and read by the status surfaces). -/
structure GrievanceRow where
  ticketNumber : String
  citizenId : Nat
  categoryId : Nat
  title : String
  description : String
  location : String
  latitude : Option Int
  longitude : Option Int
  priority : String
  status : String
  complaint_status : Option String
  sourceChannel : Option String
  sourceUserId : Option String
  updatedAt : String
deriving DecidableEq, Repr

/-- The database state visible to the Telegram subsystem. -/
structure Db where
  users : List UserRow
  sessions : List TelegramSession
  grievances : List GrievanceRow
  telegramUpdates : List Int
  categories : List (Nat × String)
  nextUserId : Nat
deriving DecidableEq, Repr

/-- An inline-keyboard button `{ text, callback_data }` (server.ts). -/
structure InlineButton where
  text : String
  callback_data : String
deriving DecidableEq, Repr

/-- `{ inline_keyboard: rows }` reply markup. -/
abbrev InlineKeyboard := List (List InlineButton)

/-- Outbound fire-and-forget Telegram API effects. -/
inductive Effect where
  | sendMessage (chatId : String) (text : String) (replyMarkup : Option InlineKeyboard)
  | answerCallback (callbackQueryId : String)
deriving DecidableEq, Repr

/-- The webhook route's HTTP responses: `res.status(s).json({error})` or the
`res.json({ok: true, duplicate?})` acknowledgment. -/
inductive WebhookResp where
  | errorResp (status : Nat) (msg : String)
  | okResp (duplicate : Bool)
deriving DecidableEq, Repr

/-- The module-level configuration: `TELEGRAM_BOT_TOKEN` and
`TELEGRAM_WEBHOOK_SECRET`, both already trimmed as at module load. -/
structure TelegramConfig where
  botToken : String
  webhookSecret : String
deriving DecidableEq, Repr

/-- `isTelegramEnabled` (server.ts). -/
def isTelegramEnabled (cfg : TelegramConfig) : Bool :=
  cfg.botToken.length > 0

/-!
JS string methods are modelled as structural functions over the character
list, so that every definition evaluates inside the kernel. The inputs the
code applies them to (slash commands, language codes, callback data) are
ASCII, where these models and the JS methods coincide.
-/

/-- JS `String.prototype.trim()`: strip whitespace from both ends. -/
def jsTrim (s : String) : String :=
  (((s.toList.dropWhile Char.isWhitespace).reverse.dropWhile
      Char.isWhitespace).reverse).asString

/-- JS `String.prototype.toLowerCase()` (ASCII range). -/
def jsToLower (s : String) : String :=
  (s.toList.map Char.toLower).asString

/-- JS `String.prototype.startsWith(pat)`. -/
def jsStartsWith (s pat : String) : Bool :=
  pat.toList.isPrefixOf s.toList

/-- Character-level whitespace split (empty fields included). -/
def splitOnWhitespace : List Char → List Char → List String
  | [], acc => [acc.reverse.asString]
  | c :: rest, acc =>
    if c.isWhitespace then acc.reverse.asString :: splitOnWhitespace rest []
    else splitOnWhitespace rest (c :: acc)

/-- Replace every occurrence of `pat` (non-overlapping, left to right).
`fuel` bounds the scan; the initial fuel is the subject length, which
suffices because every step consumes at least one character. -/
def replaceAllCore (pat repl : List Char) : Nat → List Char → List Char
  | _, [] => []
  | 0, l => l
  | fuel + 1, c :: rest =>
    if pat.isPrefixOf (c :: rest) ∧ pat ≠ [] then
      repl ++ replaceAllCore pat repl fuel ((c :: rest).drop pat.length)
    else
      c :: replaceAllCore pat repl fuel rest

/-- JS `String.prototype.replace(new RegExp(pat, "g"), repl)` for a literal
non-empty pattern: replace all occurrences. -/
def jsReplaceAll (s pat repl : String) : String :=
  (replaceAllCore pat.toList repl.toList s.toList.length s.toList).asString

/-- JS `Number(s)` restricted to the outcome relevant for category-id lookup:
a non-negative integral numeral parses, anything else (`NaN`, fractional,
negative, the empty string's `0`) matches no AUTOINCREMENT category row and
is folded into `none`. -/
def jsParseNat (s : String) : Option Nat :=
  if s.toList ≠ [] ∧ s.toList.all Char.isDigit then
    some (s.toList.foldl (fun acc c => acc * 10 + (c.toNat - '0'.toNat)) 0)
  else none

/-- The `tgText` translation table (server.ts), verbatim. -/
def tgText (language : TelegramLanguage) (key : TranslationKey) : String :=
  match language, key with
  | .en, .welcome => "Welcome to Smart Grievance Bot."
  | .en, .chooseLanguage => "Choose language / भाषा निवडा:"
  | .en, .languageSet => "Language set."
  | .en, .chooseCategory => "Select complaint category:"
  | .en, .enterDescription => "Describe the issue in detail (minimum 10 characters)."
  | .en, .enterLocation => "Share location as text (area/landmark) or send live location."
  | .en, .confirmPrompt => "Please confirm your complaint details."
  | .en, .submitted => "Complaint submitted successfully. Ticket: {ticket}"
  | .en, .cancelled => "Complaint creation cancelled."
  | .en, .help => "Use /new to file complaint, /status <ticket> to check status, /cancel to stop."
  | .en, .invalidDescription => "Description is too short. Please enter at least 10 characters."
  | .en, .invalidLocation => "Location is too short. Please enter a valid location."
  | .en, .unknown => "Please use /new to start filing a complaint."
  | .en, .statusMissing => "Use: /status <ticket_number>"
  | .en, .statusNotFound => "Ticket not found for this Telegram account."
  | .en, .statusResult => "Ticket {ticket}\nStatus: {status}\nUpdated: {updated}"
  | .hi, .welcome => "स्मार्ट शिकायत बॉट में आपका स्वागत है।"
  | .hi, .chooseLanguage => "भाषा चुनें:"
  | .hi, .languageSet => "भाषा सेट हो गई।"
  | .hi, .chooseCategory => "शिकायत की श्रेणी चुनें:"
  | .hi, .enterDescription => "समस्या का विस्तृत विवरण लिखें (कम से कम 10 अक्षर)।"
  | .hi, .enterLocation => "स्थान टेक्स्ट में भेजें (एरिया/लैंडमार्क) या लाइव लोकेशन भेजें।"
  | .hi, .confirmPrompt => "कृपया शिकायत विवरण की पुष्टि करें।"
  | .hi, .submitted => "शिकायत सफलतापूर्वक दर्ज हुई। टिकट: {ticket}"
  | .hi, .cancelled => "शिकायत दर्ज करना रद्द किया गया।"
  | .hi, .help => "/new से नई शिकायत दर्ज करें, /status <ticket> से स्थिति देखें, /cancel से रोकें।"
  | .hi, .invalidDescription => "विवरण छोटा है। कम से कम 10 अक्षर लिखें।"
  | .hi, .invalidLocation => "स्थान सही नहीं है। कृपया मान्य स्थान लिखें।"
  | .hi, .unknown => "शिकायत शुरू करने के लिए /new भेजें।"
  | .hi, .statusMissing => "ऐसे लिखें: /status <ticket_number>"
  | .hi, .statusNotFound => "यह टिकट इस Telegram अकाउंट से नहीं मिला।"
  | .hi, .statusResult => "टिकट {ticket}\nस्थिति: {status}\nअपडेट: {updated}"
  | .mr, .welcome => "स्मार्ट तक्रार बॉटमध्ये आपले स्वागत आहे."
  | .mr, .chooseLanguage => "भाषा निवडा:"
  | .mr, .languageSet => "भाषा सेट झाली."
  | .mr, .chooseCategory => "तक्रारीची श्रेणी निवडा:"
  | .mr, .enterDescription => "समस्येचे सविस्तर वर्णन द्या (किमान 10 अक्षरे)."
  | .mr, .enterLocation => "ठिकाण मजकूरात पाठवा (एरिया/लँडमार्क) किंवा लाइव्ह लोकेशन पाठवा."
  | .mr, .confirmPrompt => "कृपया तक्रारीची माहिती पुष्टी करा."
  | .mr, .submitted => "तक्रार यशस्वीरित्या नोंदली. तिकीट: {ticket}"
  | .mr, .cancelled => "तक्रार नोंदणी रद्द केली."
  | .mr, .help => "/new ने तक्रार नोंदवा, /status <ticket> ने स्थिती पाहा, /cancel ने थांबा."
  | .mr, .invalidDescription => "वर्णन खूप छोटे आहे. किमान 10 अक्षरे द्या."
  | .mr, .invalidLocation => "ठिकाण योग्य नाही. कृपया वैध ठिकाण द्या."
  | .mr, .unknown => "तक्रार सुरू करण्यासाठी /new वापरा."
  | .mr, .statusMissing => "असे लिहा: /status <ticket_number>"
  | .mr, .statusNotFound => "हे तिकीट या Telegram खात्यासाठी सापडले नाही."
  | .mr, .statusResult => "तिकीट {ticket}\nस्थिती: {status}\nअपडेट: {updated}"

/-- `tgT` (server.ts): template lookup plus `{token}` substitution.  The
JS reduce over `Object.entries(params)` replacing every occurrence of the
braced token (a `/g` regex) is a fold of `String.replace`, which replaces all
occurrences.  A missing `params` argument behaves like the empty list. -/
def tgT (language : TelegramLanguage) (key : TranslationKey)
    (params : List (String × String)) : String :=
  params.foldl
    (fun acc p => jsReplaceAll acc ("\x7b" ++ p.1 ++ "\x7d") p.2)
    (tgText language key)

/-- `parseTelegramLanguage` (server.ts).  The source first tests membership of
the trimmed lowercased value in `TELEGRAM_LANGUAGES = ["en","hi","mr"]` and
then the alias lists; the candidate sets are disjoint so the sequential
equality tests below are the same function. -/
def parseTelegramLanguage (input : Option String) : Option TelegramLanguage :=
  let value := jsToLower (jsTrim (input.getD ""))
  if value = "en" then some .en
  else if value = "hi" then some .hi
  else if value = "mr" then some .mr
  else if value = "english" ∨ value = "eng" then some .en
  else if value = "hindi" ∨ value = "hin" then some .hi
  else if value = "marathi" ∨ value = "mar" then some .mr
  else none

/-- Look up the stored session for a chat id
(`SELECT ... FROM telegram_sessions WHERE chat_id = ?`). -/
def findSession (db : Db) (chatId : String) : Option TelegramSession :=
  db.sessions.find? (fun r => r.chatId == chatId)

/-- The default session lazily created for a new chat id by
`getTelegramSession` (server.ts): state `awaiting_language`, language `en`,
empty draft, no account binding. -/
def freshSession (chatId : String) : TelegramSession :=
  { chatId := chatId, userId := none, state := .awaiting_language,
    language := .en, draft := emptyDraft }

/-- `getTelegramSession` (server.ts): return the stored row, or lazily create
and INSERT a fresh session (`awaiting_language`, language `en`, empty draft). -/
def getTelegramSession (db : Db) (chatId : String) : TelegramSession × Db :=
  match findSession db chatId with
  | some row => (row, db)
  | none =>
    (freshSession chatId, { db with sessions := db.sessions ++ [freshSession chatId] })

/-- `saveTelegramSession` (server.ts): upsert keyed on `chat_id`
(`INSERT ... ON CONFLICT(chat_id) DO UPDATE SET ...`). -/
def saveTelegramSession (db : Db) (session : TelegramSession) : Db :=
  if db.sessions.any (fun r => r.chatId == session.chatId) then
    { db with sessions :=
        db.sessions.map (fun r => if r.chatId == session.chatId then session else r) }
  else
    { db with sessions := db.sessions ++ [session] }

/-- `getTelegramCategories` (server.ts):
`SELECT id, name FROM grievance_categories ORDER BY name`. -/
def getTelegramCategories (db : Db) : List (Nat × String) :=
  db.categories.mergeSort (fun a b => decide (a.2 ≤ b.2))

/-- The chat-id sanitizer of `ensureTelegramCitizen`:
`chatId.replace(/[^a-zA-Z0-9_-]/g, "_")`. -/
def sanitizeChatIdForEmail (chatId : String) : String :=
  (chatId.toList.map
    (fun c => if c.isAlphanum ∨ c = '_' ∨ c = '-' then c else '_')).asString

/-- The deterministic placeholder email derived from a chat id. -/
def tgFallbackEmail (chatId : String) : String :=
  "tg_" ++ sanitizeChatIdForEmail chatId ++ "@telegram.local"

/-- `ensureTelegramCitizen` (server.ts): resolve a chat id to a user id —
exact `telegram_chat_id` binding first, else backfill the binding onto the
user holding the deterministic fallback email, else provision a new citizen
account. -/
def ensureTelegramCitizen (db : Db) (chatId : String) (user : Option TelegramUser) :
    Nat × Db :=
  match db.users.find? (fun u => u.telegramChatId == some chatId) with
  | some existing => (existing.id, db)
  | none =>
    let fallbackEmail := tgFallbackEmail chatId
    match db.users.find? (fun u => u.email == fallbackEmail) with
    | some byEmail =>
      (byEmail.id,
       { db with users := db.users.map (fun u =>
           if u.id == byEmail.id then { u with telegramChatId := some chatId } else u) })
    | none =>
      let fn := match user with | some u => u.first_name.getD "" | none => ""
      let ln := match user with | some u => u.last_name.getD "" | none => ""
      let joined := jsTrim (fn ++ " " ++ ln)
      let fullName := if joined = "" then "Telegram User " ++ chatId else joined
      let newId := db.nextUserId
      (newId,
       { db with
           users := db.users ++
             [{ id := newId, email := fallbackEmail, name := fullName,
                role := "citizen", telegramChatId := some chatId }],
           nextUserId := newId + 1 })

/-- `languageKeyboard` (server.ts). -/
def languageKeyboard : InlineKeyboard :=
  [[{ text := "English", callback_data := "lang:en" },
    { text := "हिन्दी", callback_data := "lang:hi" },
    { text := "मराठी", callback_data := "lang:mr" }]]

/-- The two-per-row chunking loop of `categoryKeyboard` (server.ts). -/
def categoryRows : List (Nat × String) → InlineKeyboard
  | [] => []
  | [a] => [[{ text := a.2, callback_data := "cat:" ++ toString a.1 }]]
  | a :: b :: rest =>
    [{ text := a.2, callback_data := "cat:" ++ toString a.1 },
     { text := b.2, callback_data := "cat:" ++ toString b.1 }] :: categoryRows rest

/-- `categoryKeyboard` (server.ts). -/
def categoryKeyboard (db : Db) : InlineKeyboard :=
  categoryRows (getTelegramCategories db)

/-- `confirmationKeyboard` (server.ts). -/
def confirmationKeyboard (language : TelegramLanguage) : InlineKeyboard :=
  [[{ text := match language with
        | .en => "Submit" | .hi => "जमा करें" | .mr => "सबमिट करा",
      callback_data := "confirm:submit" },
    { text := match language with
        | .en => "Cancel" | .hi => "रद्द करें" | .mr => "रद्द करा",
      callback_data := "confirm:cancel" }]]

/-- The per-language label record of `buildComplaintSummary` (server.ts). -/
structure SummaryLabels where
  category : String
  description : String
  location : String
deriving DecidableEq, Repr

/-- The `labels` table of `buildComplaintSummary` (server.ts). -/
def summaryLabels : TelegramLanguage → SummaryLabels
  | .en => { category := "Category", description := "Description", location := "Location" }
  | .hi => { category := "श्रेणी", description := "विवरण", location := "स्थान" }
  | .mr => { category := "श्रेणी", description := "वर्णन", location := "ठिकाण" }

/-- `buildComplaintSummary` (server.ts). -/
def buildComplaintSummary (language : TelegramLanguage) (draft : TelegramDraft) : String :=
  let l := summaryLabels language
  tgT language .confirmPrompt [] ++ "\n\n"
    ++ l.category ++ ": " ++ (draft.categoryName.getD "-") ++ "\n"
    ++ l.description ++ ": " ++ (draft.description.getD "-") ++ "\n"
    ++ l.location ++ ": " ++ (draft.location.getD "-")

/-- JS truthiness of an optional number: `undefined`/`null` and `0` are falsy. -/
def jsTruthyNat : Option Nat → Bool
  | none => false
  | some n => n != 0

/-- JS truthiness of an optional string: `undefined`/`null` and `""` are falsy. -/
def jsTruthyStr : Option String → Bool
  | none => false
  | some s => !s.isEmpty

/-- Digit character for base 36, uppercase (`toString(36).toUpperCase()`). -/
def base36DigitChar (d : Nat) : Char :=
  if d < 10 then Char.ofNat (48 + d) else Char.ofNat (55 + d)

/-- Fuel-driven base-36 digit accumulation (structural recursion so the kernel
can evaluate it; `fuel = n + 1` always exceeds the digit count). -/
def natToBase36Core : Nat → Nat → List Char → List Char
  | 0, _, acc => acc
  | fuel + 1, n, acc =>
    let d := base36DigitChar (n % 36)
    let rest := n / 36
    if rest = 0 then d :: acc else natToBase36Core fuel rest (d :: acc)

/-- `Date.now().toString(36).toUpperCase()` for a natural timestamp. -/
def natToBase36Upper (n : Nat) : String :=
  (natToBase36Core (n + 1) n []).asString

/-- The ticket identifier allocated by the Telegram ticket writer:
`` `TGM-${Date.now().toString(36).toUpperCase()}` `` (server.ts). -/
def telegramTicketNumber (now : Nat) : String :=
  "TGM-" ++ natToBase36Upper now

/-- `submitTelegramComplaint` (server.ts): the Telegram ticket writer.
Returns the allocated ticket number, or `none` (the JS `null` failure signal)
when the JS-truthiness precondition check fails, in which case nothing is
written.  `now` stands for `Date.now()` / `CURRENT_TIMESTAMP`. -/
def submitTelegramComplaint (db : Db) (session : TelegramSession) (chatId : String)
    (now : Nat) : Option String × Db :=
  if !jsTruthyNat session.userId ∨ !jsTruthyNat session.draft.categoryId
      ∨ !jsTruthyStr session.draft.description ∨ !jsTruthyStr session.draft.location then
    (none, db)
  else
    let ticket := telegramTicketNumber now
    let title := (session.draft.description.getD "").take 100
    let row : GrievanceRow :=
      { ticketNumber := ticket
        citizenId := session.userId.getD 0
        categoryId := session.draft.categoryId.getD 0
        title := title
        description := session.draft.description.getD ""
        location := session.draft.location.getD ""
        latitude := session.draft.latitude
        longitude := session.draft.longitude
        priority := "medium"
        status := "submitted"
        complaint_status := some "pending"
        sourceChannel := some "telegram"
        sourceUserId := some chatId
        updatedAt := toString now }
    let db2 := { db with grievances := db.grievances ++ [row] }
    let session2 := { session with state := TelegramState.idle, draft := emptyDraft }
    (some ticket, saveTelegramSession db2 session2)

/-- `latitude.toFixed(6)` for a coordinate modelled as an integer (see the
file header): six zero decimals after the integral part. -/
def coordDisplay (coordinate : Int) : String :=
  toString coordinate ++ ".000000"

/-- JS `text.split(/\s+/)` for the `/status` argument.  The handler's `text`
is already trimmed, and on input without leading or trailing whitespace a
split on whitespace runs equals a character split with empty fields dropped. -/
def splitWhitespaceRuns (text : String) : List String :=
  (splitOnWhitespace text.toList []).filter (fun t => !t.isEmpty)

/-- `handleTelegramMessage` (server.ts): the message half of the conversation
FSM.  Returns the new database and the outbound effects. -/
def handleTelegramMessage (db : Db) (update : TelegramUpdate) : Db × List Effect :=
  match update.message with
  | none => (db, [])
  | some message =>
    let chatId := toString message.chat_id
    let got := getTelegramSession db chatId
    let session := got.1
    let db1 := got.2
    let text := jsTrim (message.text.getD "")
    if jsStartsWith (jsToLower text) "/start" ∨ jsStartsWith (jsToLower text) "/new" then
      let s := { session with state := TelegramState.awaiting_language, draft := emptyDraft }
      (saveTelegramSession db1 s,
       [Effect.sendMessage chatId
          (tgT s.language .welcome [] ++ "\n" ++ tgT s.language .chooseLanguage [])
          (some languageKeyboard)])
    else if jsStartsWith (jsToLower text) "/help" then
      (db1, [Effect.sendMessage chatId (tgT session.language .help []) none])
    else if jsStartsWith (jsToLower text) "/cancel" then
      let s := { session with state := TelegramState.idle, draft := emptyDraft }
      (saveTelegramSession db1 s,
       [Effect.sendMessage chatId (tgT s.language .cancelled []) none])
    else if jsStartsWith (jsToLower text) "/status" then
      let ticket := (((splitWhitespaceRuns text).get? 1).map jsTrim).getD ""
      if ticket.isEmpty then
        (db1, [Effect.sendMessage chatId (tgT session.language .statusMissing []) none])
      else
        match db1.grievances.find? (fun g =>
            g.ticketNumber == ticket && g.sourceChannel == some "telegram"
              && g.sourceUserId == some chatId) with
        | none =>
          (db1, [Effect.sendMessage chatId (tgT session.language .statusNotFound []) none])
        | some grievance =>
          (db1, [Effect.sendMessage chatId
                   (tgT session.language .statusResult
                     [("ticket", grievance.ticketNumber), ("status", grievance.status),
                      ("updated", grievance.updatedAt)]) none])
    else if session.state = TelegramState.awaiting_language then
      match parseTelegramLanguage (some text) with
      | none =>
        (db1, [Effect.sendMessage chatId (tgT session.language .chooseLanguage [])
                 (some languageKeyboard)])
      | some selected =>
        let ensured := ensureTelegramCitizen db1 chatId message.fromUser
        let db2 := ensured.2
        let s := { session with
                   language := selected,
                   state := TelegramState.awaiting_category,
                   userId := some ensured.1 }
        (saveTelegramSession db2 s,
         [Effect.sendMessage chatId
            (tgT selected .languageSet [] ++ "\n" ++ tgT selected .chooseCategory [])
            (some (categoryKeyboard db2))])
    else if session.state = TelegramState.awaiting_description then
      if text.length < 10 then
        (db1, [Effect.sendMessage chatId (tgT session.language .invalidDescription []) none])
      else
        let s := { session with
                   draft := { session.draft with description := some text },
                   state := TelegramState.awaiting_location }
        (saveTelegramSession db1 s,
         [Effect.sendMessage chatId (tgT session.language .enterLocation []) none])
    else if session.state = TelegramState.awaiting_location then
      let newDraft : Option TelegramDraft :=
        match message.location with
        | some loc =>
          some { session.draft with
                 latitude := some loc.latitude, longitude := some loc.longitude,
                 location := some (coordDisplay loc.latitude ++ ", " ++ coordDisplay loc.longitude) }
        | none =>
          if text.length ≥ 3 then
            some { session.draft with
                   location := some text, latitude := none, longitude := none }
          else none
      match newDraft with
      | none =>
        (db1, [Effect.sendMessage chatId (tgT session.language .invalidLocation []) none])
      | some draft =>
        let s := { session with
                   draft := draft,
                   state := TelegramState.awaiting_confirmation }
        (saveTelegramSession db1 s,
         [Effect.sendMessage chatId (buildComplaintSummary session.language draft)
            (some (confirmationKeyboard session.language))])
    else
      (db1, [Effect.sendMessage chatId (tgT session.language .unknown []) none])

/-- `handleTelegramCallback` (server.ts): the callback-query half of the FSM.
`now` is the `Date.now()` timestamp used by the ticket writer.  The first-hit
`data.replace("lang:", "")` / `data.replace("cat:", "")` on data that is known
to start with the pattern is a prefix drop.  `Number(...)` of the category id
suffix either yields a non-negative integral id or (NaN, negative, fractional,
empty-string `0`) a value matching no `grievance_categories` row; both of the
latter are modelled by a failed `toNat?` parse, which likewise matches no
category row because AUTOINCREMENT ids start at 1. -/
def handleTelegramCallback (db : Db) (update : TelegramUpdate) (now : Nat) :
    Db × List Effect :=
  match update.callback_query with
  | none => (db, [])
  | some callback =>
    match callback.message with
    | none => (db, [])
    | some msg =>
      let chatId := toString msg.chat_id
      let data := callback.data.getD ""
      let got := getTelegramSession db chatId
      let session := got.1
      let db1 := got.2
      let ack := Effect.answerCallback callback.id
      if jsStartsWith data "lang:" then
        match parseTelegramLanguage (some (data.drop 5)) with
        | none => (db1, [ack])
        | some selected =>
          let ensured := ensureTelegramCitizen db1 chatId (some callback.fromUser)
          let db2 := ensured.2
          let s := { session with
                     language := selected,
                     state := TelegramState.awaiting_category,
                     userId := some ensured.1 }
          (saveTelegramSession db2 s,
           [ack, Effect.sendMessage chatId
              (tgT selected .languageSet [] ++ "\n" ++ tgT selected .chooseCategory [])
              (some (categoryKeyboard db2))])
      else if jsStartsWith data "cat:" then
        let category? : Option (Nat × String) :=
          match jsParseNat (data.drop 4) with
          | none => none
          | some categoryId => db1.categories.find? (fun c => c.1 == categoryId)
        match category? with
        | none => (db1, [ack])
        | some category =>
          let s := { session with
                     draft := { session.draft with
                                categoryId := some category.1,
                                categoryName := some category.2 },
                     state := TelegramState.awaiting_description }
          (saveTelegramSession db1 s,
           [ack, Effect.sendMessage chatId (tgT s.language .enterDescription []) none])
      else if data = "confirm:cancel" then
        let s := { session with state := TelegramState.idle, draft := emptyDraft }
        (saveTelegramSession db1 s,
         [ack, Effect.sendMessage chatId (tgT s.language .cancelled []) none])
      else if data = "confirm:submit" then
        let submitted := submitTelegramComplaint db1 session chatId now
        match submitted.1 with
        | none =>
          (submitted.2,
           [ack, Effect.sendMessage chatId (tgT session.language .unknown []) none])
        | some ticket =>
          (submitted.2,
           [ack, Effect.sendMessage chatId
              (tgT session.language .submitted [("ticket", ticket)]) none])
      else (db1, [ack])

/-- `app.post("/webhooks/telegram")` (server.ts): the update ingestion gate.
`secretHeader` is the `x-telegram-bot-api-secret-token` header (`none` when
absent), `body` the parsed JSON body (`none` for a missing/falsy body).  The
`SELECT 1 ... WHERE update_id = ?` existence probe is list membership.  The
downstream `try/catch` never fires in the model because the modelled handlers
are total. -/
def telegramWebhookPost (cfg : TelegramConfig) (secretHeader : Option String)
    (body : Option TelegramUpdate) (now : Nat) (db : Db) :
    WebhookResp × Db × List Effect :=
  if !isTelegramEnabled cfg then
    (.errorResp 503 "Telegram integration is disabled", db, [])
  else if cfg.webhookSecret ≠ "" ∧ secretHeader.getD "" ≠ cfg.webhookSecret then
    (.errorResp 401 "Invalid webhook secret", db, [])
  else
    match body with
    | none => (.errorResp 400 "Invalid update payload", db, [])
    | some update =>
      match update.update_id with
      | none => (.errorResp 400 "Invalid update payload", db, [])
      | some updateId =>
        if updateId ∈ db.telegramUpdates then
          (.okResp true, db, [])
        else
          let db1 := { db with telegramUpdates := db.telegramUpdates ++ [updateId] }
          if update.callback_query.isSome then
            let r := handleTelegramCallback db1 update now
            (.okResp false, r.1, r.2)
          else if update.message.isSome then
            let r := handleTelegramMessage db1 update
            (.okResp false, r.1, r.2)
          else (.okResp false, db1, [])

/-- `normalizeStatus` from the dashboard page (`DashboardPage.tsx`,
src/unnamed/part_000 lines 213–222).  It reads `item.status` (the legacy
fine-grained value) and `item.complaint_status` (the coarse value, optional);
the function is modelled on those two fields.  JS `===` against a string is
never true for a missing field, hence `Option String` compared to `some _`. -/
def normalizeStatus (status : String) (complaint_status : Option String) : String :=
  if complaint_status = some "accepted" then "accepted"
  else if complaint_status = some "in_progress" then "in_progress"
  else if complaint_status = some "closed" then "closed"
  else if status = "resolved" then "closed"
  else if status = "under_review" ∨ status = "assigned" ∨ status = "escalated"
      ∨ status = "reopened" then "accepted"
  else if status = "in_progress" ∨ status = "awaiting_confirmation" then "in_progress"
  else if status = "closed" then "closed"
  else "submitted"

/-- The `stage` computation of `GET /api/grievances/track/:ticket`
(server.ts lines 738–749).  `String(grievance.complaint_status ?? "")` maps a
missing coarse value to `""` before the comparisons. -/
def trackStage (status : String) (complaint_status : Option String) : String :=
  let complaintStatus := complaint_status.getD ""
  if complaintStatus = "closed" ∨ status = "closed" then "closed"
  else if status = "resolved" then "closed"
  else if complaintStatus = "in_progress" ∨ status = "in_progress"
      ∨ status = "awaiting_confirmation" then "in_progress"
  else if complaintStatus = "accepted" ∨ status = "under_review" ∨ status = "assigned"
      ∨ status = "escalated" ∨ status = "reopened" then "accepted"
  else "submitted"

/-- The coarse `complaint_status` vocabulary of a ticket record: the column is
`TEXT DEFAULT 'pending'` (db.ts), written only with `'pending'` or with the
values of the authority endpoint's `z.enum(["accepted","in_progress","closed"])`,
and typed `complaint_status?: "pending" | "accepted" | "in_progress" | "closed"`
on the client (`types.ts`); `none` covers a record predating the column. -/
def CoarseVocab (complaint_status : Option String) : Prop :=
  complaint_status = none ∨ complaint_status = some "pending"
    ∨ complaint_status = some "accepted" ∨ complaint_status = some "in_progress"
    ∨ complaint_status = some "closed"

/-- The spec's fixed legacy mapping, written from the spec's words
(spec §4.5): terminal/resolved-like → closed; review/assigned/escalated/
reopened-like → accepted; active-work values → in_progress; all others →
submitted.  Used only to compare `normalizeStatus` against the spec. -/
def specLegacyStage (status : String) : String :=
  if status = "resolved" ∨ status = "closed" then "closed"
  else if status = "under_review" ∨ status = "assigned" ∨ status = "escalated"
      ∨ status = "reopened" then "accepted"
  else if status = "in_progress" ∨ status = "awaiting_confirmation" then "in_progress"
  else "submitted"

/-- The spec's normalizer precedence, written from the spec's words
(spec §4.5): a present, non-default coarse value wins outright (its own value
being the canonical stage); otherwise derive from the legacy value via the
fixed mapping.  Used only to compare `normalizeStatus` against the spec. -/
def specNormalize (status : String) (complaint_status : Option String) : String :=
  match complaint_status with
  | some coarse => if coarse ≠ "pending" then coarse else specLegacyStage status
  | none => specLegacyStage status

/-! ## Helper lemmas: which tables each store operation can touch -/

@[simp] theorem getTelegramSession_telegramUpdates (db : Db) (c : String) :
    (getTelegramSession db c).2.telegramUpdates = db.telegramUpdates := by
  unfold getTelegramSession; split <;> rfl

@[simp] theorem getTelegramSession_grievances (db : Db) (c : String) :
    (getTelegramSession db c).2.grievances = db.grievances := by
  unfold getTelegramSession; split <;> rfl

@[simp] theorem getTelegramSession_users (db : Db) (c : String) :
    (getTelegramSession db c).2.users = db.users := by
  unfold getTelegramSession; split <;> rfl

@[simp] theorem getTelegramSession_categories (db : Db) (c : String) :
    (getTelegramSession db c).2.categories = db.categories := by
  unfold getTelegramSession; split <;> rfl

@[simp] theorem saveTelegramSession_telegramUpdates (db : Db) (s : TelegramSession) :
    (saveTelegramSession db s).telegramUpdates = db.telegramUpdates := by
  unfold saveTelegramSession; split <;> rfl

@[simp] theorem saveTelegramSession_grievances (db : Db) (s : TelegramSession) :
    (saveTelegramSession db s).grievances = db.grievances := by
  unfold saveTelegramSession; split <;> rfl

@[simp] theorem saveTelegramSession_users (db : Db) (s : TelegramSession) :
    (saveTelegramSession db s).users = db.users := by
  unfold saveTelegramSession; split <;> rfl

@[simp] theorem saveTelegramSession_categories (db : Db) (s : TelegramSession) :
    (saveTelegramSession db s).categories = db.categories := by
  unfold saveTelegramSession; split <;> rfl

@[simp] theorem ensureTelegramCitizen_telegramUpdates (db : Db) (c : String)
    (u : Option TelegramUser) :
    (ensureTelegramCitizen db c u).2.telegramUpdates = db.telegramUpdates := by
  unfold ensureTelegramCitizen
  dsimp only
  repeat' split
  all_goals rfl

@[simp] theorem ensureTelegramCitizen_grievances (db : Db) (c : String)
    (u : Option TelegramUser) :
    (ensureTelegramCitizen db c u).2.grievances = db.grievances := by
  unfold ensureTelegramCitizen
  dsimp only
  repeat' split
  all_goals rfl

@[simp] theorem ensureTelegramCitizen_sessions (db : Db) (c : String)
    (u : Option TelegramUser) :
    (ensureTelegramCitizen db c u).2.sessions = db.sessions := by
  unfold ensureTelegramCitizen
  dsimp only
  repeat' split
  all_goals rfl

@[simp] theorem ensureTelegramCitizen_categories (db : Db) (c : String)
    (u : Option TelegramUser) :
    (ensureTelegramCitizen db c u).2.categories = db.categories := by
  unfold ensureTelegramCitizen
  dsimp only
  repeat' split
  all_goals rfl

@[simp] theorem submitTelegramComplaint_telegramUpdates (db : Db)
    (s : TelegramSession) (c : String) (now : Nat) :
    (submitTelegramComplaint db s c now).2.telegramUpdates = db.telegramUpdates := by
  unfold submitTelegramComplaint; split <;> simp

@[simp] theorem submitTelegramComplaint_users (db : Db)
    (s : TelegramSession) (c : String) (now : Nat) :
    (submitTelegramComplaint db s c now).2.users = db.users := by
  unfold submitTelegramComplaint; split <;> simp

@[simp] theorem submitTelegramComplaint_categories (db : Db)
    (s : TelegramSession) (c : String) (now : Nat) :
    (submitTelegramComplaint db s c now).2.categories = db.categories := by
  unfold submitTelegramComplaint; split <;> simp

theorem submitTelegramComplaint_grievances_length (db : Db)
    (s : TelegramSession) (c : String) (now : Nat) :
    (submitTelegramComplaint db s c now).2.grievances.length ≤ db.grievances.length + 1 := by
  unfold submitTelegramComplaint; split <;> simp

theorem handleTelegramMessage_telegramUpdates (db : Db) (u : TelegramUpdate) :
    (handleTelegramMessage db u).1.telegramUpdates = db.telegramUpdates := by
  unfold handleTelegramMessage
  dsimp only
  repeat' split
  all_goals simp

theorem handleTelegramMessage_grievances (db : Db) (u : TelegramUpdate) :
    (handleTelegramMessage db u).1.grievances = db.grievances := by
  unfold handleTelegramMessage
  dsimp only
  repeat' split
  all_goals simp

theorem handleTelegramCallback_telegramUpdates (db : Db) (u : TelegramUpdate) (now : Nat) :
    (handleTelegramCallback db u now).1.telegramUpdates = db.telegramUpdates := by
  unfold handleTelegramCallback
  dsimp only
  repeat' split
  all_goals simp

theorem handleTelegramCallback_grievances_length (db : Db) (u : TelegramUpdate) (now : Nat) :
    (handleTelegramCallback db u now).1.grievances.length ≤ db.grievances.length + 1 := by
  unfold handleTelegramCallback
  dsimp only
  repeat' split
  all_goals (try simp)
  all_goals exact le_trans (submitTelegramComplaint_grievances_length _ _ _ _) (by simp)

/-! ## Concrete fixtures for witnesses and counterexamples -/

/-- An empty database with the seeded category catalog (db.ts `seed`). -/
def emptyDb : Db :=
  { users := [], sessions := [], grievances := [], telegramUpdates := [],
    categories := [(1, "Roads & Potholes"), (2, "Waste Management"), (3, "Street Lights"),
                   (4, "Water Supply"), (5, "Drainage"), (6, "Public Safety")],
    nextUserId := 1 }

/-- A configuration with the bot credential set and no webhook secret. -/
def cfgNoSecret : TelegramConfig := { botToken := "bot-token", webhookSecret := "" }

/-- A configuration with both the bot credential and a webhook secret set. -/
def cfgWithSecret : TelegramConfig := { botToken := "bot-token", webhookSecret := "s3cret" }

/-! ## Session-store round-trip lemmas -/

theorem getTelegramSession_found (db : Db) (c : String) (s : TelegramSession)
    (h : findSession db c = some s) : getTelegramSession db c = (s, db) := by
  unfold getTelegramSession; rw [h]

theorem getTelegramSession_new (db : Db) (c : String)
    (h : findSession db c = none) :
    getTelegramSession db c =
      (freshSession c, { db with sessions := db.sessions ++ [freshSession c] }) := by
  unfold getTelegramSession; rw [h]

theorem findSession_chatId (db : Db) (c : String) (s : TelegramSession)
    (h : findSession db c = some s) : s.chatId = c := by
  unfold findSession at h
  have hp := List.find?_some h
  simpa using hp

theorem find?_map_replace (l : List TelegramSession) (s : TelegramSession)
    (hany : l.any (fun r => r.chatId == s.chatId) = true) :
    (l.map (fun r => if r.chatId == s.chatId then s else r)).find?
      (fun r => r.chatId == s.chatId) = some s := by
  induction l with
  | nil => simp at hany
  | cons head tail ih =>
    by_cases hh : (head.chatId == s.chatId) = true
    · simp [hh, List.find?]
    · have htail : tail.any (fun r => r.chatId == s.chatId) = true := by
        simpa [hh] using hany
      simp only [List.map_cons, List.find?, hh, if_neg]
      simpa [hh] using ih htail

/-- The session upsert is read back by the session lookup: after
`saveTelegramSession`, the stored row for the session's chat id is exactly the
written session. -/
theorem findSession_save (db : Db) (s : TelegramSession) :
    findSession (saveTelegramSession db s) s.chatId = some s := by
  unfold findSession saveTelegramSession
  split
  case isTrue hany => simpa using find?_map_replace _ _ hany
  case isFalse hany =>
    have hnone : db.sessions.find? (fun r => r.chatId == s.chatId) = none := by
      rw [List.find?_eq_none]
      intro a ha hpa
      exact hany (List.any_eq_true.mpr ⟨a, ha, hpa⟩)
    simp [List.find?_append, hnone, List.find?]

/-- A session freshly inserted by the read-through `getTelegramSession` is
found by the next lookup. -/
theorem findSession_after_insert (db : Db) (c : String)
    (h : findSession db c = none) :
    findSession { db with sessions := db.sessions ++ [freshSession c] } c =
      some (freshSession c) := by
  unfold findSession at h ⊢
  simp [List.find?_append, h, List.find?, freshSession]

/-! ## Claim C2: the status normalizer follows the spec's precedence table -/

/-- **C2.** For every ticket record (legacy `status`, coarse `complaint_status`
drawn from the record's coarse vocabulary), `normalizeStatus` returns the
coarse value's stage whenever the coarse value is present and not the default
`"pending"`, and otherwise maps the legacy value by the fixed table
(resolved/closed → closed; under_review/assigned/escalated/reopened →
accepted; in_progress/awaiting_confirmation → in_progress; everything else →
submitted); in particular the spec's three sample equations hold. -/
theorem normalizeStatus_matches_spec_precedence (status : String)
    (complaint_status : Option String) (h : CoarseVocab complaint_status) :
    normalizeStatus status complaint_status = specNormalize status complaint_status ∧
    normalizeStatus "resolved" none = "closed" ∧
    normalizeStatus "in_progress" (some "pending") = "in_progress" ∧
    normalizeStatus "submitted" (some "accepted") = "accepted" := by
  refine ⟨?_, by decide, by decide, by decide⟩
  rcases h with h | h | h | h | h <;> subst h <;>
    simp only [normalizeStatus, specNormalize, specLegacyStage] <;>
    split_ifs <;> (try casesm* _ ∨ _) <;> simp_all

/-- Witness for `normalizeStatus_matches_spec_precedence` at a concrete
coarse value. -/
theorem normalizeStatus_matches_spec_precedence_witness :
    CoarseVocab (some "accepted") ∧
    normalizeStatus "submitted" (some "accepted") = specNormalize "submitted" (some "accepted") :=
  ⟨by unfold CoarseVocab; decide,
   (normalizeStatus_matches_spec_precedence "submitted" (some "accepted")
      (by unfold CoarseVocab; decide)).1⟩

/-! ## Claim C3: the two normalization paths are not extensionally equal -/

/-- **C3 counterexample.** The dashboard's `normalizeStatus` and the tracking
endpoint's stage computation disagree at (legacy `"closed"`, coarse
`"accepted"`): the dashboard lets the coarse value win (`accepted`), the
tracking endpoint lets the terminal legacy value win (`closed`). -/
theorem normalizeStatus_trackStage_disagree :
    normalizeStatus "closed" (some "accepted") = "accepted" ∧
    trackStage "closed" (some "accepted") = "closed" ∧
    normalizeStatus "closed" (some "accepted") ≠ trackStage "closed" (some "accepted") := by
  decide

/-- **C3 (amended).** The two status-normalization code paths agree on every
pair (legacy status, coarse complaint_status from the record vocabulary)
except exactly when the coarse value is `"accepted"` while the legacy value is
closed/resolved/in_progress/awaiting_confirmation, or the coarse value is
`"in_progress"` while the legacy value is closed/resolved. -/
theorem normalizeStatus_trackStage_agree (status : String)
    (complaint_status : Option String) (h : CoarseVocab complaint_status)
    (hacc : ¬(complaint_status = some "accepted" ∧
        (status = "closed" ∨ status = "resolved" ∨ status = "in_progress"
          ∨ status = "awaiting_confirmation")))
    (hip : ¬(complaint_status = some "in_progress" ∧
        (status = "closed" ∨ status = "resolved"))) :
    normalizeStatus status complaint_status = trackStage status complaint_status := by
  rcases h with h | h | h | h | h <;> subst h <;>
    simp only [normalizeStatus, trackStage, Option.getD] <;>
    split_ifs <;> (try casesm* _ ∨ _) <;> simp_all

/-- Witness for `normalizeStatus_trackStage_agree` at a concrete input. -/
theorem normalizeStatus_trackStage_agree_witness :
    normalizeStatus "under_review" (some "accepted") = trackStage "under_review" (some "accepted") :=
  normalizeStatus_trackStage_agree "under_review" (some "accepted")
    (by unfold CoarseVocab; decide) (by decide) (by decide)

/-! ## Claim C4: the Telegram ticket identifier has no suffix component -/

/-- A completed draft for chat `"111"`, ready to submit. -/
def readySessionA : TelegramSession :=
  { chatId := "111", userId := some 1, state := .awaiting_confirmation, language := .en,
    draft := { categoryId := some 2, categoryName := some "Waste Management",
               description := some "Garbage overflowing near the market",
               location := some "Market Road" } }

/-- A completed draft for a different chat `"222"`, ready to submit. -/
def readySessionB : TelegramSession :=
  { chatId := "222", userId := some 2, state := .awaiting_confirmation, language := .en,
    draft := { categoryId := some 3, categoryName := some "Street Lights",
               description := some "Street light broken for a week",
               location := some "Baner Road" } }

/-- **C4 counterexample.** Two distinct submissions in the same millisecond
(`now = 1234`) are allocated the *same* ticket identifier `TGM-YA`: the
identifier is channel prefix plus time component only, with no random or
sequence suffix to break same-millisecond collisions. -/
theorem telegram_ticket_same_millisecond_collision :
    readySessionA ≠ readySessionB ∧
    (submitTelegramComplaint emptyDb readySessionA "111" 1234).1 = some "TGM-YA" ∧
    (submitTelegramComplaint emptyDb readySessionB "222" 1234).1 = some "TGM-YA" := by
  decide

/-- **C4 (amended).** Every ticket identifier allocated by the Telegram ticket
writer consists of the channel prefix `TGM-` followed by the uppercase base-36
rendering of the allocation timestamp, and nothing else; consequently two
submissions in the same millisecond receive identical (not distinct) candidate
identifiers, and uniqueness rests solely on the ticket-number column's UNIQUE
constraint rejecting the second insert. -/
theorem telegram_ticket_structure (db : Db) (session : TelegramSession)
    (chatId : String) (now : Nat)
    (hu : jsTruthyNat session.userId = true)
    (hc : jsTruthyNat session.draft.categoryId = true)
    (hd : jsTruthyStr session.draft.description = true)
    (hl : jsTruthyStr session.draft.location = true) :
    (submitTelegramComplaint db session chatId now).1 = some (telegramTicketNumber now) ∧
    telegramTicketNumber now = "TGM-" ++ natToBase36Upper now := by
  refine ⟨?_, rfl⟩
  unfold submitTelegramComplaint
  simp [hu, hc, hd, hl]

/-- Witness for `telegram_ticket_structure`. -/
theorem telegram_ticket_structure_witness :
    (submitTelegramComplaint emptyDb readySessionA "111" 1234).1 =
      some (telegramTicketNumber 1234) :=
  (telegram_ticket_structure emptyDb readySessionA "111" 1234
    (by decide) (by decide) (by decide) (by decide)).1

/-! ## Claim C8: secret mismatch rejects before any processing -/

/-- **C8.** Whenever a webhook secret is configured and the incoming request's
secret header (missing headers read as `""`) differs from it, the webhook
handler rejects with 401 before any further processing: the database is
returned unchanged (no ledger entry, no session read-through insert or write,
no ticket write) and no outbound effect is produced. -/
theorem webhook_secret_mismatch_rejected (cfg : TelegramConfig)
    (secretHeader : Option String) (body : Option TelegramUpdate) (now : Nat) (db : Db)
    (henabled : isTelegramEnabled cfg = true)
    (hconfigured : cfg.webhookSecret ≠ "")
    (hmismatch : secretHeader.getD "" ≠ cfg.webhookSecret) :
    telegramWebhookPost cfg secretHeader body now db =
      (.errorResp 401 "Invalid webhook secret", db, []) := by
  simp [telegramWebhookPost, henabled, hconfigured, hmismatch]

/-- Witness for `webhook_secret_mismatch_rejected`. -/
theorem webhook_secret_mismatch_rejected_witness :
    telegramWebhookPost cfgWithSecret (some "wrong")
      (some { update_id := some 7 }) 0 emptyDb =
      (.errorResp 401 "Invalid webhook secret", emptyDb, []) :=
  webhook_secret_mismatch_rejected cfgWithSecret (some "wrong")
    (some { update_id := some 7 }) 0 emptyDb (by decide) (by decide) (by decide)

/-! ## Claim C10: invalid payloads are rejected with 400 and no side effect -/

/-- **C10.** With the bot credential configured and the secret check passing,
a webhook request whose body is missing or whose `update_id` is not a number
is answered with a 400 error and has no side effects: the database is returned
unchanged (no ledger entry, no session creation or mutation, no ticket write)
and no outbound effect is produced. -/
theorem webhook_invalid_payload_rejected (cfg : TelegramConfig)
    (secretHeader : Option String) (body : Option TelegramUpdate) (now : Nat) (db : Db)
    (henabled : isTelegramEnabled cfg = true)
    (hsecret : cfg.webhookSecret = "" ∨ secretHeader.getD "" = cfg.webhookSecret)
    (hbad : body = none ∨ ∃ u, body = some u ∧ u.update_id = none) :
    telegramWebhookPost cfg secretHeader body now db =
      (.errorResp 400 "Invalid update payload", db, []) := by
  have hs : ¬(cfg.webhookSecret ≠ "" ∧ secretHeader.getD "" ≠ cfg.webhookSecret) := by
    rcases hsecret with h | h <;> simp [h]
  rcases hbad with h | ⟨u, hb, hid⟩
  · subst h; simp [telegramWebhookPost, henabled, hs]
  · subst hb; simp [telegramWebhookPost, henabled, hs, hid]

/-- Witness for `webhook_invalid_payload_rejected`. -/
theorem webhook_invalid_payload_rejected_witness :
    telegramWebhookPost cfgNoSecret none (some { update_id := none }) 0 emptyDb =
      (.errorResp 400 "Invalid update payload", emptyDb, []) :=
  webhook_invalid_payload_rejected cfgNoSecret none (some { update_id := none }) 0 emptyDb
    (by decide) (Or.inl rfl) (Or.inr ⟨{ update_id := none }, rfl, rfl⟩)

/-! ## Claim C7: cancel clears the draft, idles the session, writes no ticket -/

/-- **C7.** For every stored session (in any state), processing a cancel input
— the `/cancel` text command or the `confirm:cancel` callback — stores a
session with an empty draft and state `idle` whose chat id, user id and
language are those of the prior session, writes no ticket (and changes no
user or ledger row), and replies with the cancellation message. -/
theorem cancel_clears_draft_and_returns_idle :
    (∀ (db : Db) (u : TelegramUpdate) (message : TelegramMessage) (s : TelegramSession),
      u.message = some message → message.text = some "/cancel" →
      findSession db (toString message.chat_id) = some s →
      handleTelegramMessage db u =
        (saveTelegramSession db { s with state := .idle, draft := emptyDraft },
         [Effect.sendMessage (toString message.chat_id) (tgT s.language .cancelled []) none]) ∧
      findSession (handleTelegramMessage db u).1 (toString message.chat_id) =
        some { s with state := .idle, draft := emptyDraft } ∧
      (handleTelegramMessage db u).1.grievances = db.grievances ∧
      (handleTelegramMessage db u).1.users = db.users ∧
      (handleTelegramMessage db u).1.telegramUpdates = db.telegramUpdates) ∧
    (∀ (db : Db) (u : TelegramUpdate) (callback : TelegramCallbackQuery)
        (msg : TelegramMessage) (s : TelegramSession) (now : Nat),
      u.callback_query = some callback → callback.message = some msg →
      callback.data = some "confirm:cancel" →
      findSession db (toString msg.chat_id) = some s →
      handleTelegramCallback db u now =
        (saveTelegramSession db { s with state := .idle, draft := emptyDraft },
         [Effect.answerCallback callback.id,
          Effect.sendMessage (toString msg.chat_id) (tgT s.language .cancelled []) none]) ∧
      findSession (handleTelegramCallback db u now).1 (toString msg.chat_id) =
        some { s with state := .idle, draft := emptyDraft } ∧
      (handleTelegramCallback db u now).1.grievances = db.grievances ∧
      (handleTelegramCallback db u now).1.users = db.users ∧
      (handleTelegramCallback db u now).1.telegramUpdates = db.telegramUpdates) := by
  constructor
  · intro db u message s hu htext hfound
    have hc : s.chatId = toString message.chat_id := findSession_chatId _ _ _ hfound
    have heq : handleTelegramMessage db u =
        (saveTelegramSession db { s with state := .idle, draft := emptyDraft },
         [Effect.sendMessage (toString message.chat_id) (tgT s.language .cancelled []) none]) := by
      have h1 : jsStartsWith (jsToLower (jsTrim "/cancel")) "/start" = false := by decide
      have h2 : jsStartsWith (jsToLower (jsTrim "/cancel")) "/new" = false := by decide
      have h3 : jsStartsWith (jsToLower (jsTrim "/cancel")) "/help" = false := by decide
      have h4 : jsStartsWith (jsToLower (jsTrim "/cancel")) "/cancel" = true := by decide
      unfold handleTelegramMessage
      rw [hu]
      dsimp only
      rw [getTelegramSession_found _ _ _ hfound, htext]
      dsimp only
      simp only [Option.getD_some, h1, h2, h3, h4]
      simp
    refine ⟨heq, ?_, ?_, ?_, ?_⟩
    · rw [heq]; rw [← hc]; exact findSession_save db _
    · rw [heq]; simp
    · rw [heq]; simp
    · rw [heq]; simp
  · intro db u callback msg s now hcb hmsg hdata hfound
    have hc : s.chatId = toString msg.chat_id := findSession_chatId _ _ _ hfound
    have heq : handleTelegramCallback db u now =
        (saveTelegramSession db { s with state := .idle, draft := emptyDraft },
         [Effect.answerCallback callback.id,
          Effect.sendMessage (toString msg.chat_id) (tgT s.language .cancelled []) none]) := by
      have h1 : jsStartsWith "confirm:cancel" "lang:" = false := by decide
      have h2 : jsStartsWith "confirm:cancel" "cat:" = false := by decide
      unfold handleTelegramCallback
      rw [hcb]
      dsimp only
      rw [hmsg]
      dsimp only
      rw [getTelegramSession_found _ _ _ hfound, hdata]
      dsimp only
      simp only [Option.getD_some, h1, h2]
      simp
    refine ⟨heq, ?_, ?_, ?_, ?_⟩
    · rw [heq]; rw [← hc]; exact findSession_save db _
    · rw [heq]; simp
    · rw [heq]; simp
    · rw [heq]; simp

/-- Witness for `cancel_clears_draft_and_returns_idle`: cancelling from a
mid-conversation state (`awaiting_confirmation`, draft populated) idles the
stored session and clears the draft. -/
theorem cancel_clears_draft_and_returns_idle_witness :
    findSession
      (handleTelegramMessage
        { emptyDb with sessions := [readySessionA] }
        { update_id := some 9,
          message := some { message_id := 2, chat_id := 111, text := some "/cancel" } }).1
      "111" =
    some { readySessionA with state := .idle, draft := emptyDraft } :=
  ((cancel_clears_draft_and_returns_idle).1
    { emptyDb with sessions := [readySessionA] }
    { update_id := some 9,
      message := some { message_id := 2, chat_id := 111, text := some "/cancel" } }
    { message_id := 2, chat_id := 111, text := some "/cancel" }
    readySessionA rfl rfl (by decide)).2.1

/-! ## Claim C5: the first inbound event for a new chat id -/

/-- **C5 counterexample.** A chat id with no stored session whose *first*
inbound message is the valid language selection `"en"` ends processing with a
stored session in state `awaiting_category`, not `awaiting_language`: the
claim's universally quantified post-state fails. -/
theorem first_event_language_text_leaves_awaiting_category :
    findSession emptyDb "555" = none ∧
    (findSession
      (handleTelegramMessage emptyDb
        { update_id := some 1,
          message := some { message_id := 1, chat_id := 555, text := some "en" } }).1
      "555").map TelegramSession.state = some TelegramState.awaiting_category ∧
    TelegramState.awaiting_category ≠ TelegramState.awaiting_language := by
  decide

/-- **C5 (amended).** For every chat id with no stored session, processing the
first inbound message event creates (and leaves stored) the default session —
state `awaiting_language`, empty draft, no account binding, language `en` —
provided the message text is not the cancel command and not a valid language
selection; those two inputs instead move the new session on to `idle`
respectively `awaiting_category` (still with an empty draft). -/
theorem first_event_creates_awaiting_language_session (db : Db)
    (u : TelegramUpdate) (message : TelegramMessage)
    (hu : u.message = some message)
    (hnew : findSession db (toString message.chat_id) = none)
    (hcancel : jsStartsWith (jsToLower (jsTrim (message.text.getD ""))) "/cancel" = false)
    (hlang : parseTelegramLanguage (some (jsTrim (message.text.getD ""))) = none) :
    findSession (handleTelegramMessage db u).1 (toString message.chat_id) =
      some (freshSession (toString message.chat_id)) := by
  unfold handleTelegramMessage
  rw [hu]
  dsimp only
  rw [getTelegramSession_new _ _ hnew]
  dsimp only
  rw [hlang]
  split_ifs <;> (try simp_all [freshSession, emptyDraft]) <;>
    first
      | (exact findSession_after_insert db _ hnew)
      | (split <;> exact findSession_after_insert db _ hnew)
      | (simpa [freshSession] using
          findSession_save
            { db with sessions := db.sessions ++ [freshSession (toString message.chat_id)] }
            (freshSession (toString message.chat_id)))

/-- Witness for `first_event_creates_awaiting_language_session`: the first
message `"hello"` from a new chat leaves the default session stored. -/
theorem first_event_creates_awaiting_language_session_witness :
    findSession
      (handleTelegramMessage emptyDb
        { update_id := some 2,
          message := some { message_id := 1, chat_id := 777, text := some "hello" } }).1
      "777" = some (freshSession "777") :=
  first_event_creates_awaiting_language_session emptyDb
    { update_id := some 2,
      message := some { message_id := 1, chat_id := 777, text := some "hello" } }
    { message_id := 1, chat_id := 777, text := some "hello" }
    rfl (by decide) (by decide) (by decide)

/-! ## Claim C6: the ticket writer's preconditions -/

/-- A session whose draft carries a 5-character description but passes the
writer's own presence checks. -/
def shortDescSession : TelegramSession :=
  { chatId := "7", userId := some 1, state := .awaiting_confirmation, language := .en,
    draft := { categoryId := some 3, categoryName := some "Street Lights",
               description := some "short", location := some "Market Road" } }

/-- **C6 counterexample.** The ticket writer itself does *not* check the
10-character description minimum: called on a draft whose description is the
5-character `"short"` (with user id, category and location present) it writes
a ticket rather than failing. -/
theorem ticket_writer_accepts_short_description :
    ("short".length < 10) ∧
    (submitTelegramComplaint emptyDb shortDescSession "7" 0).1 = some "TGM-0" ∧
    (submitTelegramComplaint emptyDb shortDescSession "7" 0).2.grievances.length = 1 := by
  decide

/-- C6 helper: the writer's precondition failure path is a pure no-op
returning the `null` failure signal. -/
theorem submit_precondition_failure (db : Db) (session : TelegramSession)
    (chatId : String) (now : Nat)
    (hfail : (!jsTruthyNat session.userId) = true
      ∨ (!jsTruthyNat session.draft.categoryId) = true
      ∨ (!jsTruthyStr session.draft.description) = true
      ∨ (!jsTruthyStr session.draft.location) = true) :
    submitTelegramComplaint db session chatId now = (none, db) := by
  unfold submitTelegramComplaint
  rw [if_pos hfail]

/-- **C6 (amended).** The Telegram ticket writer writes a ticket only when the
account is resolved and the draft has a category, a description and a location
that are present and JS-truthy (nonzero / nonempty) — the ≥10-character
description and ≥3-character-or-coordinates location minima are enforced
earlier, by the conversation handlers, which refuse to store shorter inputs
into the draft.  When any of the writer's preconditions fails it performs no
database write, leaves the session unchanged, and returns the `null` failure
signal; the `confirm:submit` caller then reports failure (the `unknown`
prompt), not success, to the chat. -/
theorem ticket_writer_preconditions :
    (∀ (db : Db) (session : TelegramSession) (chatId : String) (now : Nat),
      ((!jsTruthyNat session.userId) = true
        ∨ (!jsTruthyNat session.draft.categoryId) = true
        ∨ (!jsTruthyStr session.draft.description) = true
        ∨ (!jsTruthyStr session.draft.location) = true) →
      submitTelegramComplaint db session chatId now = (none, db)) ∧
    (∀ (db : Db) (u : TelegramUpdate) (callback : TelegramCallbackQuery)
        (msg : TelegramMessage) (s : TelegramSession) (now : Nat),
      u.callback_query = some callback → callback.message = some msg →
      callback.data = some "confirm:submit" →
      findSession db (toString msg.chat_id) = some s →
      ((!jsTruthyNat s.userId) = true
        ∨ (!jsTruthyNat s.draft.categoryId) = true
        ∨ (!jsTruthyStr s.draft.description) = true
        ∨ (!jsTruthyStr s.draft.location) = true) →
      handleTelegramCallback db u now =
        (db, [Effect.answerCallback callback.id,
              Effect.sendMessage (toString msg.chat_id) (tgT s.language .unknown []) none])) ∧
    (∀ (db : Db) (u : TelegramUpdate) (message : TelegramMessage) (s : TelegramSession),
      u.message = some message →
      findSession db (toString message.chat_id) = some s →
      s.state = TelegramState.awaiting_description →
      jsStartsWith (jsToLower (jsTrim (message.text.getD ""))) "/start" = false →
      jsStartsWith (jsToLower (jsTrim (message.text.getD ""))) "/new" = false →
      jsStartsWith (jsToLower (jsTrim (message.text.getD ""))) "/help" = false →
      jsStartsWith (jsToLower (jsTrim (message.text.getD ""))) "/cancel" = false →
      jsStartsWith (jsToLower (jsTrim (message.text.getD ""))) "/status" = false →
      (jsTrim (message.text.getD "")).length < 10 →
      handleTelegramMessage db u =
        (db, [Effect.sendMessage (toString message.chat_id)
                (tgT s.language .invalidDescription []) none])) ∧
    (∀ (db : Db) (u : TelegramUpdate) (message : TelegramMessage) (s : TelegramSession),
      u.message = some message →
      findSession db (toString message.chat_id) = some s →
      s.state = TelegramState.awaiting_location →
      message.location = none →
      jsStartsWith (jsToLower (jsTrim (message.text.getD ""))) "/start" = false →
      jsStartsWith (jsToLower (jsTrim (message.text.getD ""))) "/new" = false →
      jsStartsWith (jsToLower (jsTrim (message.text.getD ""))) "/help" = false →
      jsStartsWith (jsToLower (jsTrim (message.text.getD ""))) "/cancel" = false →
      jsStartsWith (jsToLower (jsTrim (message.text.getD ""))) "/status" = false →
      ¬(jsTrim (message.text.getD "")).length ≥ 3 →
      handleTelegramMessage db u =
        (db, [Effect.sendMessage (toString message.chat_id)
                (tgT s.language .invalidLocation []) none])) := by
  refine ⟨fun db session chatId now hfail =>
    submit_precondition_failure db session chatId now hfail, ?_, ?_, ?_⟩
  · intro db u callback msg s now hcb hmsg hdata hfound hfail
    have h1 : jsStartsWith "confirm:submit" "lang:" = false := by decide
    have h2 : jsStartsWith "confirm:submit" "cat:" = false := by decide
    unfold handleTelegramCallback
    rw [hcb]
    dsimp only
    rw [hmsg]
    dsimp only
    rw [getTelegramSession_found _ _ _ hfound, hdata]
    dsimp only
    simp only [Option.getD_some, h1, h2]
    rw [submit_precondition_failure _ _ _ _ hfail]
    simp
  · intro db u message s hu hfound hstate h1 h2 h3 h4 h5 hshort
    unfold handleTelegramMessage
    rw [hu]
    dsimp only
    rw [getTelegramSession_found _ _ _ hfound]
    dsimp only
    simp only [h1, h2, h3, h4, h5, hstate]
    simp [hshort]
  · intro db u message s hu hfound hstate hloc h1 h2 h3 h4 h5 hshort
    unfold handleTelegramMessage
    rw [hu]
    dsimp only
    rw [getTelegramSession_found _ _ _ hfound]
    dsimp only
    simp only [h1, h2, h3, h4, h5, hstate, hloc]
    simp [hshort]

/-- Witness for `ticket_writer_preconditions`: a fresh session (no account,
empty draft) produces the failure signal and no write. -/
theorem ticket_writer_preconditions_witness :
    submitTelegramComplaint emptyDb (freshSession "9") "9" 5 = (none, emptyDb) :=
  (ticket_writer_preconditions).1 emptyDb (freshSession "9") "9" 5 (Or.inl (by decide))

/-! ## Claim C9: identity resolution is idempotent -/

theorem find?_append_singleton (l : List UserRow) (row : UserRow) (c : String)
    (hnone : l.find? (fun v => v.telegramChatId == some c) = none)
    (hrow : row.telegramChatId = some c) :
    (l ++ [row]).find? (fun v => v.telegramChatId == some c) = some row := by
  rw [List.find?_append, hnone]
  simp [List.find?, hrow]

/-- After any call of the identity resolver, the first user carrying the
chat-id binding exists and carries the returned account id. -/
theorem ensureTelegramCitizen_binds (db : Db) (c : String) (tu : Option TelegramUser) :
    ∃ w, (ensureTelegramCitizen db c tu).2.users.find?
        (fun v => v.telegramChatId == some c) = some w ∧
      w.id = (ensureTelegramCitizen db c tu).1 := by
  unfold ensureTelegramCitizen
  cases hfind : db.users.find? (fun v => v.telegramChatId == some c) with
  | some existing =>
    exact ⟨existing, by simp [hfind], by simp [hfind]⟩
  | none =>
    have hall : ∀ v ∈ db.users, ¬ (v.telegramChatId == some c) = true :=
      List.find?_eq_none.mp hfind
    cases hmail : db.users.find? (fun v => v.email == tgFallbackEmail c) with
    | some byEmail =>
      have hmem : byEmail ∈ db.users := List.mem_of_find?_eq_some hmail
      have hmap := List.find?_map
        (f := fun v : UserRow =>
          if v.id == byEmail.id then { v with telegramChatId := some c } else v)
        (l := db.users)
        (p := fun v : UserRow => v.telegramChatId == some c)
      have hsome : (db.users.find?
          ((fun v : UserRow => v.telegramChatId == some c) ∘
           (fun v : UserRow =>
             if v.id == byEmail.id then { v with telegramChatId := some c } else v))).isSome := by
        rw [List.find?_isSome]
        exact ⟨byEmail, hmem, by simp⟩
      obtain ⟨u0, hu0⟩ := Option.isSome_iff_exists.mp hsome
      have hu0mem : u0 ∈ db.users := List.mem_of_find?_eq_some hu0
      have hu0p := List.find?_some hu0
      have hu0id : u0.id = byEmail.id := by
        by_cases hid : (u0.id == byEmail.id) = true
        · simpa using hid
        · exfalso
          have hthis : ((if u0.id == byEmail.id then
              { u0 with telegramChatId := some c } else u0).telegramChatId == some c) = true := by
            simpa [Function.comp] using hu0p
          rw [if_neg hid] at hthis
          exact hall u0 hu0mem hthis
      refine ⟨{ u0 with telegramChatId := some c }, ?_, ?_⟩
      · simp only [hfind, hmail]
        try dsimp only
        rw [hmap, hu0]
        simp [hu0id]
      · simp [hfind, hmail, hu0id]
    | none =>
      simp only [hfind, hmail]
      exact ⟨_, find?_append_singleton _ _ _ hfind rfl, rfl⟩

/-- When a chat-id binding already resolves, the identity resolver returns its
account id and leaves the database untouched. -/
theorem ensureTelegramCitizen_already_bound (db : Db) (c : String)
    (tu : Option TelegramUser) (i : Nat)
    (h : ∃ w, db.users.find? (fun v => v.telegramChatId == some c) = some w ∧ w.id = i) :
    ensureTelegramCitizen db c tu = (i, db) := by
  obtain ⟨w, hw, hid⟩ := h
  unfold ensureTelegramCitizen
  rw [hw]
  dsimp only
  rw [hid]

/-- One resolver call inserts at most one user row. -/
theorem ensureTelegramCitizen_users_length (db : Db) (c : String)
    (tu : Option TelegramUser) :
    (ensureTelegramCitizen db c tu).2.users.length ≤ db.users.length + 1 := by
  unfold ensureTelegramCitizen
  dsimp only
  repeat' split
  all_goals simp

/-- The resolver preserves the at-most-one-account-per-chat-id invariant
(user ids are unique: `id` is the table's AUTOINCREMENT primary key). -/
theorem ensureTelegramCitizen_binding_unique (db : Db) (c : String)
    (tu : Option TelegramUser)
    (hnodup : (db.users.map UserRow.id).Nodup)
    (hinv : ∀ w1 ∈ db.users, ∀ w2 ∈ db.users,
        w1.telegramChatId = some c → w2.telegramChatId = some c → w1 = w2) :
    ∀ w1 ∈ (ensureTelegramCitizen db c tu).2.users,
      ∀ w2 ∈ (ensureTelegramCitizen db c tu).2.users,
        w1.telegramChatId = some c → w2.telegramChatId = some c → w1 = w2 := by
  unfold ensureTelegramCitizen
  cases hfind : db.users.find? (fun v => v.telegramChatId == some c) with
  | some existing => simpa [hfind] using hinv
  | none =>
    have hall : ∀ v ∈ db.users, ¬ (v.telegramChatId == some c) = true :=
      List.find?_eq_none.mp hfind
    cases hmail : db.users.find? (fun v => v.email == tgFallbackEmail c) with
    | some byEmail =>
      simp only [hfind, hmail]
      intro w1 hw1 w2 hw2 hb1 hb2
      rw [List.mem_map] at hw1 hw2
      obtain ⟨u1, hu1mem, hfu1⟩ := hw1
      obtain ⟨u2, hu2mem, hfu2⟩ := hw2
      have hid1 : (u1.id == byEmail.id) = true := by
        by_cases hid : (u1.id == byEmail.id) = true
        · exact hid
        · exfalso
          rw [if_neg hid] at hfu1
          exact hall u1 hu1mem (by rw [hfu1, hb1]; simp)
      have hid2 : (u2.id == byEmail.id) = true := by
        by_cases hid : (u2.id == byEmail.id) = true
        · exact hid
        · exfalso
          rw [if_neg hid] at hfu2
          exact hall u2 hu2mem (by rw [hfu2, hb2]; simp)
      have hu12 : u1 = u2 :=
        List.inj_on_of_nodup_map hnodup hu1mem hu2mem
          (by rw [show u1.id = byEmail.id from by simpa using hid1,
                  show u2.id = byEmail.id from by simpa using hid2])
      rw [← hfu1, ← hfu2, if_pos hid1, if_pos hid2, hu12]
    | none =>
      simp only [hfind, hmail]
      intro w1 hw1 w2 hw2 hb1 hb2
      simp only [List.mem_append, List.mem_singleton] at hw1 hw2
      rcases hw1 with hw1 | hw1
      · exact absurd (by rw [hb1]; simp) (hall w1 hw1)
      · rcases hw2 with hw2 | hw2
        · exact absurd (by rw [hb2]; simp) (hall w2 hw2)
        · rw [hw1, hw2]

/-- **C9.** Identity resolution is idempotent: resolving the same chat id
twice in sequence returns the same account id both times, the second call
changes nothing, the first call creates at most one new account row, and the
at-most-one-account-per-chat-id invariant is preserved (given that user ids
are unique, as the AUTOINCREMENT primary key makes them). -/
theorem identity_resolution_idempotent (db : Db) (chatId : String)
    (tu1 tu2 : Option TelegramUser)
    (hnodup : (db.users.map UserRow.id).Nodup)
    (hinv : ∀ w1 ∈ db.users, ∀ w2 ∈ db.users,
        w1.telegramChatId = some chatId → w2.telegramChatId = some chatId → w1 = w2) :
    (ensureTelegramCitizen (ensureTelegramCitizen db chatId tu1).2 chatId tu2).1 =
      (ensureTelegramCitizen db chatId tu1).1 ∧
    (ensureTelegramCitizen (ensureTelegramCitizen db chatId tu1).2 chatId tu2).2 =
      (ensureTelegramCitizen db chatId tu1).2 ∧
    (ensureTelegramCitizen db chatId tu1).2.users.length ≤ db.users.length + 1 ∧
    (∀ w1 ∈ (ensureTelegramCitizen db chatId tu1).2.users,
      ∀ w2 ∈ (ensureTelegramCitizen db chatId tu1).2.users,
        w1.telegramChatId = some chatId → w2.telegramChatId = some chatId → w1 = w2) := by
  have hsecond := ensureTelegramCitizen_already_bound
      (ensureTelegramCitizen db chatId tu1).2 chatId tu2
      (ensureTelegramCitizen db chatId tu1).1 (ensureTelegramCitizen_binds db chatId tu1)
  exact ⟨by rw [hsecond], by rw [hsecond],
         ensureTelegramCitizen_users_length db chatId tu1,
         ensureTelegramCitizen_binding_unique db chatId tu1 hnodup hinv⟩

/-- Witness for `identity_resolution_idempotent`: resolving chat `"42"` twice
on an empty database returns the same id and the second call is a no-op. -/
theorem identity_resolution_idempotent_witness :
    (ensureTelegramCitizen (ensureTelegramCitizen emptyDb "42" none).2 "42" none).1 =
      (ensureTelegramCitizen emptyDb "42" none).1 ∧
    (ensureTelegramCitizen (ensureTelegramCitizen emptyDb "42" none).2 "42" none).2 =
      (ensureTelegramCitizen emptyDb "42" none).2 :=
  ⟨(identity_resolution_idempotent emptyDb "42" none none
      (by simp [emptyDb]) (by simp [emptyDb])).1,
   (identity_resolution_idempotent emptyDb "42" none none
      (by simp [emptyDb]) (by simp [emptyDb])).2.1⟩

/-! ## Claim C1: update-id deduplication at the ingestion gate -/

/-- **C1.** For every update whose `update_id` already has a ledger row, the
webhook handler (bot enabled, secret passing) acknowledges immediately with
`{ok, duplicate}` and performs no FSM dispatch, no session write and no ticket
write (state unchanged, no outbound effects).  Processing a fresh `update_id`
ledgers it exactly once (count 1), every replay of the same update against the
resulting state is such a no-op duplicate acknowledgment, and the two
processings together write at most one ticket. -/
theorem webhook_replay_single_ledger_and_ticket (cfg : TelegramConfig)
    (secretHeader : Option String) (u : TelegramUpdate) (now : Nat) (db : Db) (uid : Int)
    (henabled : isTelegramEnabled cfg = true)
    (hsecret : cfg.webhookSecret = "" ∨ secretHeader.getD "" = cfg.webhookSecret)
    (hid : u.update_id = some uid)
    (hfresh : uid ∉ db.telegramUpdates) :
    (∀ (db2 : Db) (now2 : Nat), uid ∈ db2.telegramUpdates →
      telegramWebhookPost cfg secretHeader (some u) now2 db2 = (.okResp true, db2, [])) ∧
    (telegramWebhookPost cfg secretHeader (some u) now db).2.1.telegramUpdates.count uid = 1 ∧
    (∀ now2 : Nat, telegramWebhookPost cfg secretHeader (some u) now2
        (telegramWebhookPost cfg secretHeader (some u) now db).2.1 =
      (.okResp true, (telegramWebhookPost cfg secretHeader (some u) now db).2.1, [])) ∧
    (telegramWebhookPost cfg secretHeader (some u) now db).2.1.grievances.length ≤
      db.grievances.length + 1 := by
  have hs : ¬(cfg.webhookSecret ≠ "" ∧ secretHeader.getD "" ≠ cfg.webhookSecret) := by
    rcases hsecret with h | h <;> simp [h]
  have hdup : ∀ (db2 : Db) (now2 : Nat), uid ∈ db2.telegramUpdates →
      telegramWebhookPost cfg secretHeader (some u) now2 db2 = (.okResp true, db2, []) := by
    intro db2 now2 hmem
    unfold telegramWebhookPost
    simp only [henabled]
    rw [if_neg (by simp), if_neg hs, hid]
    dsimp only
    rw [if_pos hmem]
  have hledger : (telegramWebhookPost cfg secretHeader (some u) now db).2.1.telegramUpdates =
      db.telegramUpdates ++ [uid] := by
    unfold telegramWebhookPost
    simp only [henabled]
    rw [if_neg (by simp), if_neg hs, hid]
    dsimp only
    rw [if_neg hfresh]
    split_ifs <;>
      simp [handleTelegramCallback_telegramUpdates, handleTelegramMessage_telegramUpdates]
  have hgrv : (telegramWebhookPost cfg secretHeader (some u) now db).2.1.grievances.length ≤
      db.grievances.length + 1 := by
    unfold telegramWebhookPost
    simp only [henabled]
    rw [if_neg (by simp), if_neg hs, hid]
    dsimp only
    rw [if_neg hfresh]
    split_ifs
    · exact le_trans (handleTelegramCallback_grievances_length _ _ _) (by simp)
    · simp [handleTelegramMessage_grievances]
    · simp
  refine ⟨hdup, ?_, ?_, hgrv⟩
  · rw [hledger]
    simp [List.count_append, List.count_eq_zero.mpr hfresh]
  · intro now2
    exact hdup _ now2 (by rw [hledger]; simp)

/-- A concrete inbound `/help` update for the C1 witness. -/
def helpUpdate : TelegramUpdate :=
  { update_id := some 7,
    message := some { message_id := 1, chat_id := 5, text := some "/help" } }

/-- Witness for `webhook_replay_single_ledger_and_ticket`: replaying update 7
against the state left by its first processing is acknowledged as a duplicate
with no state change and no effects. -/
theorem webhook_replay_single_ledger_and_ticket_witness :
    telegramWebhookPost cfgNoSecret none (some helpUpdate) 9
        (telegramWebhookPost cfgNoSecret none (some helpUpdate) 5 emptyDb).2.1 =
      (.okResp true,
       (telegramWebhookPost cfgNoSecret none (some helpUpdate) 5 emptyDb).2.1, []) :=
  (webhook_replay_single_ledger_and_ticket cfgNoSecret none helpUpdate 5 emptyDb 7
    (by decide) (Or.inl rfl) rfl (by decide)).2.2.1 9

end SmartGrievance
